import Mathlib

/-!
Shallow embedding of the device-acquisition core of src/app.py
(class SafeCamera and the function detect_cameras).

The OpenCV transport (cv2.VideoCapture objects) is modelled by an
environment `Env` of boolean/deterministic oracles describing, per
VideoCapture argument, whether each hardware call raises, whether the
device reports itself opened, whether a frame read succeeds, and which
resolution the device negotiates.  Handle identity is modelled by an
allocation counter in a `World`, and every hardware call appends an
event to the world trace, so resource properties (release before
return, at-most-N open attempts, exactly-one read) are statements
about the trace.

Python exceptions from transport calls are modelled as `Except Unit`
results of the per-variant attempt body; the except-handlers of the
source correspond to the places where such an error is folded into a
normal result.
-/

/-- OpenCV constant cv2.CAP_V4L (value 200). -/
def CAP_V4L : Int := 200

/-- OpenCV constant cv2.CAP_V4L2 (an alias of CAP_V4L, also 200). -/
def CAP_V4L2 : Int := 200

/-- OpenCV property id cv2.CAP_PROP_FRAME_WIDTH. -/
def CAP_PROP_FRAME_WIDTH : Nat := 3

/-- OpenCV property id cv2.CAP_PROP_FRAME_HEIGHT. -/
def CAP_PROP_FRAME_HEIGHT : Nat := 4

/-- OpenCV property id cv2.CAP_PROP_FPS. -/
def CAP_PROP_FPS : Nat := 5

/-- OpenCV property id cv2.CAP_PROP_BUFFERSIZE. -/
def CAP_PROP_BUFFERSIZE : Nat := 38

/-- A VideoCapture handle: its allocation id and the argument it was
constructed with (index plus backend constant). -/
structure Cap where
  id : Nat
  arg : Int
deriving DecidableEq

/-- One transport-level event, recorded in the world trace. -/
inductive Ev where
  | ctor (arg : Int) (id : Nat)
  | ctorFail (arg : Int)
  | isOp (id : Nat) (b : Bool)
  | isOpEx (id : Nat)
  | setProp (id : Nat) (prop : Nat) (v : Int)
  | setEx (id : Nat) (prop : Nat)
  | getProp (id : Nat) (prop : Nat)
  | getEx (id : Nat) (prop : Nat)
  | readF (id : Nat) (ok : Bool)
  | readEx (id : Nat)
  | releaseH (id : Nat)
  | releaseEx (id : Nat)
deriving DecidableEq

/-- The world outside the camera object: the next fresh handle id and
the trace of transport events performed so far. -/
structure World where
  nextId : Nat
  trace : List Ev
deriving DecidableEq

/-- Append one event to the world trace. -/
def World.log (w : World) (e : Ev) : World :=
  { w with trace := w.trace ++ [e] }

/-- Allocate a fresh handle id for a cv2.VideoCapture call with the
given argument, recording the construction event. -/
def World.alloc (w : World) (arg : Int) : World :=
  { nextId := w.nextId + 1, trace := w.trace ++ [Ev.ctor arg w.nextId] }

/-- The transport environment: a deterministic model of how the
underlying OpenCV driver behaves for each VideoCapture argument. -/
structure Env where
  ctorRaises : Int → Bool
  isOpenedRaises : Int → Bool
  opened : Int → Bool
  setRaises : Int → Nat → Bool
  getRaises : Int → Nat → Bool
  readRaises : Int → Bool
  readOk : Int → Bool
  releaseRaises : Int → Bool
  actualW : Int → Int → Int
  actualH : Int → Int → Int

/-- The mutable state of a SafeCamera object (fields set in
SafeCamera.__init__ of src/app.py). -/
structure Camera where
  cap : Option Cap
  initialized : Bool
  resolutions : List (Int × Int)
  current_resolution_index : Nat
deriving DecidableEq

/-- A freshly constructed SafeCamera (src/app.py lines 11-20). -/
def Camera.new : Camera :=
  { cap := none
    initialized := false
    resolutions := [(640, 480), (1280, 720), (1920, 1080), (2592, 1944)]
    current_resolution_index := 0 }

/-- Embedding of SafeCamera.release (src/app.py lines 95-102).  The
raw handle release may raise; the except-handler swallows the error,
but the two assignments that clear the fields are inside the try and
are therefore skipped when the raw release raises. -/
def SafeCamera.release (env : Env) (cam : Camera) (w : World) : Camera × World :=
  match cam.cap with
  | none => ({ cam with cap := none, initialized := false }, w)
  | some c =>
    if env.releaseRaises c.arg then
      (cam, w.log (Ev.releaseEx c.id))
    else
      ({ cam with cap := none, initialized := false }, w.log (Ev.releaseH c.id))

/-- The body of one initialization attempt inside the for-loop of
SafeCamera.initialize (src/app.py lines 40-59), for the VideoCapture
argument of that attempt.  An `Except.error` result is a Python
exception escaping the attempt body (to be caught by the inner
except-handler); `Except.ok true` is the early `return True`;
`Except.ok false` is falling through to the next attempt. -/
def attemptRun (env : Env) (arg : Int) (cam : Camera) (w : World) :
    Except Unit Bool × Camera × World :=
  if env.ctorRaises arg then
    (Except.error (), cam, w.log (Ev.ctorFail arg))
  else if env.isOpenedRaises arg then
    (Except.error (), { cam with cap := some ⟨w.nextId, arg⟩ },
      (w.alloc arg).log (Ev.isOpEx w.nextId))
  else if env.opened arg then
    if env.setRaises arg CAP_PROP_BUFFERSIZE then
      (Except.error (), { cam with cap := some ⟨w.nextId, arg⟩ },
        ((w.alloc arg).log (Ev.isOp w.nextId true)).log (Ev.setEx w.nextId CAP_PROP_BUFFERSIZE))
    else if env.setRaises arg CAP_PROP_FPS then
      (Except.error (), { cam with cap := some ⟨w.nextId, arg⟩ },
        (((w.alloc arg).log (Ev.isOp w.nextId true)).log
            (Ev.setProp w.nextId CAP_PROP_BUFFERSIZE 1)).log (Ev.setEx w.nextId CAP_PROP_FPS))
    else if env.readRaises arg then
      (Except.error (), { cam with cap := some ⟨w.nextId, arg⟩ },
        ((((w.alloc arg).log (Ev.isOp w.nextId true)).log
            (Ev.setProp w.nextId CAP_PROP_BUFFERSIZE 1)).log
            (Ev.setProp w.nextId CAP_PROP_FPS 15)).log (Ev.readEx w.nextId))
    else if env.readOk arg then
      (Except.ok true, { cam with cap := some ⟨w.nextId, arg⟩, initialized := true },
        ((((w.alloc arg).log (Ev.isOp w.nextId true)).log
            (Ev.setProp w.nextId CAP_PROP_BUFFERSIZE 1)).log
            (Ev.setProp w.nextId CAP_PROP_FPS 15)).log (Ev.readF w.nextId true))
    else if env.releaseRaises arg then
      (Except.error (), { cam with cap := some ⟨w.nextId, arg⟩ },
        (((((w.alloc arg).log (Ev.isOp w.nextId true)).log
            (Ev.setProp w.nextId CAP_PROP_BUFFERSIZE 1)).log
            (Ev.setProp w.nextId CAP_PROP_FPS 15)).log (Ev.readF w.nextId false)).log
            (Ev.releaseEx w.nextId))
    else
      (Except.ok false, { cam with cap := some ⟨w.nextId, arg⟩ },
        (((((w.alloc arg).log (Ev.isOp w.nextId true)).log
            (Ev.setProp w.nextId CAP_PROP_BUFFERSIZE 1)).log
            (Ev.setProp w.nextId CAP_PROP_FPS 15)).log (Ev.readF w.nextId false)).log
            (Ev.releaseH w.nextId))
  else
    (Except.ok false, { cam with cap := some ⟨w.nextId, arg⟩ },
      (w.alloc arg).log (Ev.isOp w.nextId false))

/-- Whether an attempt result is the winning early return. -/
def isWin : Except Unit Bool → Bool
  | Except.ok true => true
  | _ => false

/-- The for-loop over the attempt list in SafeCamera.initialize
(src/app.py lines 39-62): a winning attempt returns True at once; a
falling-through attempt or an attempt whose body raised (caught by the
inner except-handler) moves on to the next attempt; an exhausted list
returns False. -/
def initLoop (env : Env) : List Int → Camera → World → Bool × Camera × World
  | [], cam, w => (false, cam, w)
  | arg :: rest, cam, w =>
    if isWin (attemptRun env arg cam w).1 then
      (true, (attemptRun env arg cam w).2.1, (attemptRun env arg cam w).2.2)
    else
      initLoop env rest (attemptRun env arg cam w).2.1 (attemptRun env arg cam w).2.2

/-- The fixed ordered list of VideoCapture arguments tried by
SafeCamera.initialize (src/app.py lines 30-37). -/
def attemptsList (index : Int) : List Int :=
  [index, index + CAP_V4L, index + CAP_V4L2, -1, -1 + CAP_V4L, -1 + CAP_V4L2]

/-- Embedding of SafeCamera.initialize (src/app.py lines 22-67),
renamed to init.  If a handle field is present, the method first calls
self.release(); it then runs the attempt loop.  The outer
except-handler of the source is unreachable here because release never
raises and the loop catches every attempt error. -/
def SafeCamera.init (env : Env) (index : Int) (cam : Camera) (w : World) :
    Bool × Camera × World :=
  if cam.cap.isSome then
    initLoop env (attemptsList index)
      (SafeCamera.release env cam w).1 (SafeCamera.release env cam w).2
  else
    initLoop env (attemptsList index) cam w

/-- Embedding of SafeCamera.read (src/app.py lines 86-93). -/
def SafeCamera.read (env : Env) (cam : Camera) (w : World) :
    (Bool × Option Unit) × Camera × World :=
  if cam.initialized = false then
    ((false, none), cam, w)
  else
    match cam.cap with
    | none => ((false, none), cam, w)
    | some c =>
      if env.readRaises c.arg then
        ((false, none), cam, w.log (Ev.readEx c.id))
      else
        ((env.readOk c.arg, if env.readOk c.arg then some () else none), cam,
          w.log (Ev.readF c.id (env.readOk c.arg)))

/-- Embedding of SafeCamera.set_resolution (src/app.py lines 69-84).
On a non-initialized camera it returns (None, None) without touching
any handle.  When initialized with a handle, it requests width and
height and reads back the negotiated actual dimensions; any raise from
the four property calls is caught and folded into (None, None). -/
def SafeCamera.set_resolution (env : Env) (width height : Int) (cam : Camera) (w : World) :
    (Option Int × Option Int) × Camera × World :=
  if cam.initialized = false then
    ((none, none), cam, w)
  else
    match cam.cap with
    | none => ((none, none), cam, w)
    | some c =>
      if env.setRaises c.arg CAP_PROP_FRAME_WIDTH then
        ((none, none), cam, w.log (Ev.setEx c.id CAP_PROP_FRAME_WIDTH))
      else if env.setRaises c.arg CAP_PROP_FRAME_HEIGHT then
        ((none, none), cam,
          (w.log (Ev.setProp c.id CAP_PROP_FRAME_WIDTH width)).log
            (Ev.setEx c.id CAP_PROP_FRAME_HEIGHT))
      else if env.getRaises c.arg CAP_PROP_FRAME_WIDTH then
        ((none, none), cam,
          ((w.log (Ev.setProp c.id CAP_PROP_FRAME_WIDTH width)).log
            (Ev.setProp c.id CAP_PROP_FRAME_HEIGHT height)).log
            (Ev.getEx c.id CAP_PROP_FRAME_WIDTH))
      else if env.getRaises c.arg CAP_PROP_FRAME_HEIGHT then
        ((none, none), cam,
          (((w.log (Ev.setProp c.id CAP_PROP_FRAME_WIDTH width)).log
            (Ev.setProp c.id CAP_PROP_FRAME_HEIGHT height)).log
            (Ev.getProp c.id CAP_PROP_FRAME_WIDTH)).log
            (Ev.getEx c.id CAP_PROP_FRAME_HEIGHT))
      else
        ((some (env.actualW c.arg width), some (env.actualH c.arg height)), cam,
          ((((w.log (Ev.setProp c.id CAP_PROP_FRAME_WIDTH width)).log
            (Ev.setProp c.id CAP_PROP_FRAME_HEIGHT height)).log
            (Ev.getProp c.id CAP_PROP_FRAME_WIDTH)).log
            (Ev.getProp c.id CAP_PROP_FRAME_HEIGHT)))

/-- The display name built for a detected index (the Python
f-string "Camera i"). -/
def cameraName (i : Int) : String :=
  "Camera " ++ toString i

/-- The candidate indices probed by detect_cameras: range(4). -/
def candidateIndices : List Int :=
  [0, 1, 2, 3]

/-- Whether the probe of detect_cameras keeps index i: the handle
construction must not raise, isOpened must not raise and report true,
and the single test read must not raise and report success. -/
def probeOk (env : Env) (i : Int) : Bool :=
  !env.ctorRaises i && !env.isOpenedRaises i && env.opened i &&
    !env.readRaises i && env.readOk i

/-- The for-loop of detect_cameras (src/app.py lines 112-122).  Note
that the raw cap.release() sits inside the try after the read, so a
raising isOpened or read skips the release (the handle is leaked),
while a read that merely reports failure still reaches the release. -/
def detectLoop (env : Env) : List Int → List (Int × String) → World → List (Int × String) × World
  | [], acc, w => (acc, w)
  | i :: rest, acc, w =>
    if env.ctorRaises i then
      detectLoop env rest acc (w.log (Ev.ctorFail i))
    else if env.isOpenedRaises i then
      detectLoop env rest acc ((w.alloc i).log (Ev.isOpEx w.nextId))
    else if env.opened i then
      if env.readRaises i then
        detectLoop env rest acc
          (((w.alloc i).log (Ev.isOp w.nextId true)).log (Ev.readEx w.nextId))
      else if env.readOk i then
        if env.releaseRaises i then
          detectLoop env rest (acc ++ [(i, cameraName i)])
            ((((w.alloc i).log (Ev.isOp w.nextId true)).log
              (Ev.readF w.nextId true)).log (Ev.releaseEx w.nextId))
        else
          detectLoop env rest (acc ++ [(i, cameraName i)])
            ((((w.alloc i).log (Ev.isOp w.nextId true)).log
              (Ev.readF w.nextId true)).log (Ev.releaseH w.nextId))
      else
        if env.releaseRaises i then
          detectLoop env rest acc
            ((((w.alloc i).log (Ev.isOp w.nextId true)).log
              (Ev.readF w.nextId false)).log (Ev.releaseEx w.nextId))
        else
          detectLoop env rest acc
            ((((w.alloc i).log (Ev.isOp w.nextId true)).log
              (Ev.readF w.nextId false)).log (Ev.releaseH w.nextId))
    else
      if env.releaseRaises i then
        detectLoop env rest acc
          (((w.alloc i).log (Ev.isOp w.nextId false)).log (Ev.releaseEx w.nextId))
      else
        detectLoop env rest acc
          (((w.alloc i).log (Ev.isOp w.nextId false)).log (Ev.releaseH w.nextId))

/-- Embedding of detect_cameras (src/app.py lines 104-124): the auto
sentinel entry is appended first, then the probed indices. -/
def detect_cameras (env : Env) (w : World) : List (Int × String) × World :=
  detectLoop env candidateIndices [(-1, "Auto Detect Camera")] w

/-- Whether one attempt of SafeCamera.init wins (open reports success,
the two property calls pass, and the test read succeeds), with no call
of the attempt raising. -/
def variantSucceeds (env : Env) (arg : Int) : Bool :=
  !env.ctorRaises arg && !env.isOpenedRaises arg && env.opened arg &&
    !env.setRaises arg CAP_PROP_BUFFERSIZE && !env.setRaises arg CAP_PROP_FPS &&
    !env.readRaises arg && env.readOk arg

/-- First element of a list satisfying a predicate, in list order. -/
def firstSat (p : Int → Bool) : List Int → Option Int
  | [] => none
  | a :: rest => if p a then some a else firstSat p rest

/-- The transport raises no exception on any call. -/
def noRaises (env : Env) : Prop :=
  (∀ a, env.ctorRaises a = false) ∧ (∀ a, env.isOpenedRaises a = false) ∧
    (∀ a p, env.setRaises a p = false) ∧ (∀ a, env.readRaises a = false) ∧
    (∀ a, env.releaseRaises a = false)

/-- Whether an event is a VideoCapture construction attempt. -/
def isCtorEv : Ev → Bool
  | Ev.ctor _ _ => true
  | Ev.ctorFail _ => true
  | _ => false

/-- Whether an event is a frame-read call. -/
def isReadEv : Ev → Bool
  | Ev.readF _ _ => true
  | Ev.readEx _ => true
  | _ => false

/-- Number of VideoCapture construction attempts recorded in a trace. -/
def openAttempts (l : List Ev) : Nat :=
  (l.filter isCtorEv).length

/-- The empty starting world. -/
def w0 : World :=
  ⟨0, []⟩

/-- A transport on which every device reports not opened and nothing
raises: every open variant fails. -/
def envAllFail : Env :=
  { ctorRaises := fun _ => false
    isOpenedRaises := fun _ => false
    opened := fun _ => false
    setRaises := fun _ _ => false
    getRaises := fun _ _ => false
    readRaises := fun _ => false
    readOk := fun _ => false
    releaseRaises := fun _ => false
    actualW := fun _ v => v
    actualH := fun _ v => v }

/-- A transport where every device reports opened but only the
argument 200 (index 0 plus the V4L constant) delivers frames. -/
def envScenB : Env :=
  { ctorRaises := fun _ => false
    isOpenedRaises := fun _ => false
    opened := fun _ => true
    setRaises := fun _ _ => false
    getRaises := fun _ _ => false
    readRaises := fun _ => false
    readOk := fun a => a == 200
    releaseRaises := fun _ => false
    actualW := fun _ v => v
    actualH := fun _ v => v }

/-- A transport whose VideoCapture constructor always raises. -/
def envCtorRaise : Env :=
  { ctorRaises := fun _ => true
    isOpenedRaises := fun _ => false
    opened := fun _ => false
    setRaises := fun _ _ => false
    getRaises := fun _ _ => false
    readRaises := fun _ => false
    readOk := fun _ => false
    releaseRaises := fun _ => false
    actualW := fun _ v => v
    actualH := fun _ v => v }

/-- A fully working transport whose raw handle release always raises. -/
def envRelRaise : Env :=
  { ctorRaises := fun _ => false
    isOpenedRaises := fun _ => false
    opened := fun _ => true
    setRaises := fun _ _ => false
    getRaises := fun _ _ => false
    readRaises := fun _ => false
    readOk := fun _ => true
    releaseRaises := fun _ => true
    actualW := fun _ v => v
    actualH := fun _ v => v }

/-- A fully working, never-raising transport. -/
def envOK : Env :=
  { ctorRaises := fun _ => false
    isOpenedRaises := fun _ => false
    opened := fun _ => true
    setRaises := fun _ _ => false
    getRaises := fun _ _ => false
    readRaises := fun _ => false
    readOk := fun _ => true
    releaseRaises := fun _ => false
    actualW := fun _ v => v
    actualH := fun _ v => v }

/-- A transport on which index 0 reports opened but its read raises,
and every other index reports not opened; nothing else raises. -/
def envLeak : Env :=
  { ctorRaises := fun _ => false
    isOpenedRaises := fun _ => false
    opened := fun a => a == 0
    setRaises := fun _ _ => false
    getRaises := fun _ _ => false
    readRaises := fun a => a == 0
    readOk := fun _ => false
    releaseRaises := fun _ => false
    actualW := fun _ v => v
    actualH := fun _ v => v }

/-- A never-raising transport where every index opens but no read ever
succeeds. -/
def envProbe : Env :=
  { ctorRaises := fun _ => false
    isOpenedRaises := fun _ => false
    opened := fun _ => true
    setRaises := fun _ _ => false
    getRaises := fun _ _ => false
    readRaises := fun _ => false
    readOk := fun _ => false
    releaseRaises := fun _ => false
    actualW := fun _ v => v
    actualH := fun _ v => v }

/-- A working device that snaps every resolution request to
1920 by 1080. -/
def envSnap : Env :=
  { ctorRaises := fun _ => false
    isOpenedRaises := fun _ => false
    opened := fun _ => true
    setRaises := fun _ _ => false
    getRaises := fun _ _ => false
    readRaises := fun _ => false
    readOk := fun _ => true
    releaseRaises := fun _ => false
    actualW := fun _ _ => 1920
    actualH := fun _ _ => 1080 }

/-- A transport whose read reports failure but does not raise. -/
def envReadFail : Env :=
  { ctorRaises := fun _ => false
    isOpenedRaises := fun _ => false
    opened := fun _ => true
    setRaises := fun _ _ => false
    getRaises := fun _ _ => false
    readRaises := fun _ => false
    readOk := fun _ => false
    releaseRaises := fun _ => false
    actualW := fun _ v => v
    actualH := fun _ v => v }

/-- An open camera state holding handle 0 constructed with argument 0. -/
def camOpen0 : Camera :=
  { cap := some ⟨0, 0⟩
    initialized := true
    resolutions := [(640, 480), (1280, 720), (1920, 1080), (2592, 1944)]
    current_resolution_index := 0 }

/-! ### Helper lemmas about one initialization attempt -/

lemma attemptRun_isWin_iff (env : Env) (arg : Int) (cam : Camera) (w : World) :
    isWin (attemptRun env arg cam w).1 = variantSucceeds env arg := by
  unfold attemptRun
  split_ifs <;> simp_all [variantSucceeds, isWin]

lemma attemptRun_win_eq (env : Env) (arg : Int) (cam : Camera) (w : World)
    (h : variantSucceeds env arg = true) :
    attemptRun env arg cam w =
      (Except.ok true, { cam with cap := some ⟨w.nextId, arg⟩, initialized := true },
        ⟨w.nextId + 1, w.trace ++
          [Ev.ctor arg w.nextId, Ev.isOp w.nextId true,
           Ev.setProp w.nextId CAP_PROP_BUFFERSIZE 1, Ev.setProp w.nextId CAP_PROP_FPS 15,
           Ev.readF w.nextId true]⟩) := by
  unfold variantSucceeds at h
  unfold attemptRun
  cases h1 : env.ctorRaises arg <;> cases h2 : env.isOpenedRaises arg <;>
    cases h3 : env.opened arg <;> cases h4 : env.setRaises arg CAP_PROP_BUFFERSIZE <;>
    cases h5 : env.setRaises arg CAP_PROP_FPS <;> cases h6 : env.readRaises arg <;>
    cases h7 : env.readOk arg <;> simp_all [World.log, World.alloc]

lemma attemptRun_lose_initialized (env : Env) (arg : Int) (cam : Camera) (w : World)
    (h : variantSucceeds env arg = false) :
    (attemptRun env arg cam w).2.1.initialized = cam.initialized := by
  unfold variantSucceeds at h
  unfold attemptRun
  cases h1 : env.ctorRaises arg <;> cases h2 : env.isOpenedRaises arg <;>
    cases h3 : env.opened arg <;> cases h4 : env.setRaises arg CAP_PROP_BUFFERSIZE <;>
    cases h5 : env.setRaises arg CAP_PROP_FPS <;> cases h6 : env.readRaises arg <;>
    cases h7 : env.readOk arg <;> cases h8 : env.releaseRaises arg <;>
    simp_all [World.log, World.alloc]

lemma attemptRun_trace (env : Env) (arg : Int) (cam : Camera) (w : World) :
    ∃ δ, (attemptRun env arg cam w).2.2.trace = w.trace ++ δ ∧ openAttempts δ = 1 := by
  unfold attemptRun
  split_ifs
  case _ =>
    exact ⟨[Ev.ctorFail arg], by simp [World.log], by simp [openAttempts, isCtorEv]⟩
  case _ =>
    exact ⟨[Ev.ctor arg w.nextId, Ev.isOpEx w.nextId],
      by simp [World.log, World.alloc], by simp [openAttempts, isCtorEv]⟩
  case _ =>
    exact ⟨[Ev.ctor arg w.nextId, Ev.isOp w.nextId true, Ev.setEx w.nextId CAP_PROP_BUFFERSIZE],
      by simp [World.log, World.alloc], by simp [openAttempts, isCtorEv]⟩
  case _ =>
    exact ⟨[Ev.ctor arg w.nextId, Ev.isOp w.nextId true,
        Ev.setProp w.nextId CAP_PROP_BUFFERSIZE 1, Ev.setEx w.nextId CAP_PROP_FPS],
      by simp [World.log, World.alloc], by simp [openAttempts, isCtorEv]⟩
  case _ =>
    exact ⟨[Ev.ctor arg w.nextId, Ev.isOp w.nextId true,
        Ev.setProp w.nextId CAP_PROP_BUFFERSIZE 1, Ev.setProp w.nextId CAP_PROP_FPS 15,
        Ev.readEx w.nextId],
      by simp [World.log, World.alloc], by simp [openAttempts, isCtorEv]⟩
  case _ =>
    exact ⟨[Ev.ctor arg w.nextId, Ev.isOp w.nextId true,
        Ev.setProp w.nextId CAP_PROP_BUFFERSIZE 1, Ev.setProp w.nextId CAP_PROP_FPS 15,
        Ev.readF w.nextId true],
      by simp [World.log, World.alloc], by simp [openAttempts, isCtorEv]⟩
  case _ =>
    exact ⟨[Ev.ctor arg w.nextId, Ev.isOp w.nextId true,
        Ev.setProp w.nextId CAP_PROP_BUFFERSIZE 1, Ev.setProp w.nextId CAP_PROP_FPS 15,
        Ev.readF w.nextId false, Ev.releaseEx w.nextId],
      by simp [World.log, World.alloc], by simp [openAttempts, isCtorEv]⟩
  case _ =>
    exact ⟨[Ev.ctor arg w.nextId, Ev.isOp w.nextId true,
        Ev.setProp w.nextId CAP_PROP_BUFFERSIZE 1, Ev.setProp w.nextId CAP_PROP_FPS 15,
        Ev.readF w.nextId false, Ev.releaseH w.nextId],
      by simp [World.log, World.alloc], by simp [openAttempts, isCtorEv]⟩
  case _ =>
    exact ⟨[Ev.ctor arg w.nextId, Ev.isOp w.nextId false],
      by simp [World.log, World.alloc], by simp [openAttempts, isCtorEv]⟩

lemma openAttempts_append (a b : List Ev) :
    openAttempts (a ++ b) = openAttempts a + openAttempts b := by
  simp [openAttempts, List.filter_append]

/-! ### Helper lemmas about the attempt loop -/

lemma initLoop_fst (env : Env) :
    ∀ (args : List Int) (cam : Camera) (w : World),
      (initLoop env args cam w).1 = args.any (fun a => variantSucceeds env a)
  | [], cam, w => by simp [initLoop]
  | arg :: rest, cam, w => by
    rw [initLoop]
    cases hv : variantSucceeds env arg with
    | true => simp [attemptRun_isWin_iff, hv]
    | false => simp [attemptRun_isWin_iff, hv, initLoop_fst env rest]

lemma initLoop_firstSat (env : Env) :
    ∀ (args : List Int) (cam : Camera) (w : World) (a : Int),
      firstSat (fun x => variantSucceeds env x) args = some a →
      ∃ c : Cap, (initLoop env args cam w).2.1.cap = some c ∧ c.arg = a
  | [], cam, w, a => by simp [firstSat]
  | arg :: rest, cam, w, a => by
    intro h
    rw [initLoop]
    cases hv : variantSucceeds env arg with
    | true =>
      rw [firstSat, if_pos hv] at h
      refine ⟨⟨w.nextId, arg⟩, ?_, ?_⟩
      · simp [attemptRun_isWin_iff, hv, attemptRun_win_eq env arg cam w hv, isWin]
      · simpa using h
    | false =>
      rw [firstSat, if_neg (by simp [hv])] at h
      simpa [attemptRun_isWin_iff, hv] using
        initLoop_firstSat env rest
          (attemptRun env arg cam w).2.1 (attemptRun env arg cam w).2.2 a h

lemma initLoop_initialized_of_all_fail (env : Env) :
    ∀ (args : List Int) (cam : Camera) (w : World),
      (∀ a ∈ args, variantSucceeds env a = false) →
      (initLoop env args cam w).2.1.initialized = cam.initialized
  | [], cam, w => by simp [initLoop]
  | arg :: rest, cam, w => by
    intro h
    have hv : variantSucceeds env arg = false := h arg (by simp)
    rw [initLoop]
    rw [attemptRun_isWin_iff, hv]
    simp only [Bool.false_eq_true, if_false]
    rw [initLoop_initialized_of_all_fail env rest _ _ (fun a ha => h a (by simp [ha]))]
    exact attemptRun_lose_initialized env arg cam w hv

lemma initLoop_trace (env : Env) :
    ∀ (args : List Int) (cam : Camera) (w : World),
      ∃ δ, (initLoop env args cam w).2.2.trace = w.trace ++ δ ∧
        openAttempts δ ≤ args.length
  | [], cam, w => by simp [initLoop, openAttempts]
  | arg :: rest, cam, w => by
    obtain ⟨δ1, hδ1, hc1⟩ := attemptRun_trace env arg cam w
    rw [initLoop]
    cases hw : isWin (attemptRun env arg cam w).1 with
    | true =>
      exact ⟨δ1, by simpa using hδ1, by simp [hc1]⟩
    | false =>
      obtain ⟨δ2, hδ2, hc2⟩ :=
        initLoop_trace env rest (attemptRun env arg cam w).2.1 (attemptRun env arg cam w).2.2
      refine ⟨δ1 ++ δ2, ?_, ?_⟩
      · simp [hδ2, hδ1, List.append_assoc]
      · simp only [openAttempts_append, hc1, List.length_cons]
        omega

lemma initLoop_win_shape (env : Env) :
    ∀ (args : List Int) (cam : Camera) (w : World),
      (initLoop env args cam w).1 = true →
      ∃ c : Cap, (initLoop env args cam w).2.1.cap = some c ∧
        (initLoop env args cam w).2.1.initialized = true ∧
        ∃ pre, (initLoop env args cam w).2.2.trace = w.trace ++ pre ++
          [Ev.ctor c.arg c.id, Ev.isOp c.id true,
           Ev.setProp c.id CAP_PROP_BUFFERSIZE 1, Ev.setProp c.id CAP_PROP_FPS 15,
           Ev.readF c.id true]
  | [], cam, w => by simp [initLoop]
  | arg :: rest, cam, w => by
    intro h
    rw [initLoop] at h ⊢
    cases hv : variantSucceeds env arg with
    | true =>
      rw [attemptRun_isWin_iff, hv]
      have he := attemptRun_win_eq env arg cam w hv
      refine ⟨⟨w.nextId, arg⟩, by simp [he], by simp [he], [], by simp [he]⟩
    | false =>
      rw [attemptRun_isWin_iff, hv] at h ⊢
      simp only [Bool.false_eq_true, if_false] at h ⊢
      obtain ⟨c, hc, hi, pre, hp⟩ :=
        initLoop_win_shape env rest (attemptRun env arg cam w).2.1 (attemptRun env arg cam w).2.2 h
      obtain ⟨δ1, hδ1, -⟩ := attemptRun_trace env arg cam w
      exact ⟨c, hc, hi, δ1 ++ pre, by simp [hp, hδ1, List.append_assoc]⟩

/-! ### Helper lemmas about release -/

lemma release_clean (env : Env) (cam : Camera) (w : World)
    (h : ∀ a, env.releaseRaises a = false) :
    (SafeCamera.release env cam w).1.cap = none ∧
      (SafeCamera.release env cam w).1.initialized = false := by
  cases hc : cam.cap <;> simp [SafeCamera.release, hc, h]

lemma release_trace (env : Env) (cam : Camera) (w : World) :
    ∃ δ, (SafeCamera.release env cam w).2.trace = w.trace ++ δ ∧ openAttempts δ = 0 := by
  cases hc : cam.cap with
  | none => exact ⟨[], by simp [SafeCamera.release, hc], by simp [openAttempts]⟩
  | some c =>
    cases hr : env.releaseRaises c.arg with
    | true =>
      exact ⟨[Ev.releaseEx c.id], by simp [SafeCamera.release, hc, hr, World.log],
        by simp [openAttempts, isCtorEv]⟩
    | false =>
      exact ⟨[Ev.releaseH c.id], by simp [SafeCamera.release, hc, hr, World.log],
        by simp [openAttempts, isCtorEv]⟩

/-! ### Helper lemmas about the enumeration loop -/

lemma detectLoop_acc (env : Env) :
    ∀ (is : List Int) (acc : List (Int × String)) (w : World),
      (detectLoop env is acc w).1 =
        acc ++ (is.filter (fun i => probeOk env i)).map (fun i => (i, cameraName i))
  | [], acc, w => by simp [detectLoop]
  | i :: rest, acc, w => by
    rw [detectLoop]
    cases h1 : env.ctorRaises i <;> cases h2 : env.isOpenedRaises i <;>
      cases h3 : env.opened i <;> cases h4 : env.readRaises i <;>
      cases h5 : env.readOk i <;> cases h6 : env.releaseRaises i <;>
      simp [h1, h2, h3, h4, h5, h6, probeOk, detectLoop_acc env rest,
        List.filter_cons, List.append_assoc]

lemma detectLoop_mono (env : Env) :
    ∀ (is : List Int) (acc : List (Int × String)) (w : World) (e : Ev),
      e ∈ w.trace → e ∈ (detectLoop env is acc w).2.trace
  | [], acc, w, e => by simp [detectLoop]
  | i :: rest, acc, w, e => by
    intro he
    rw [detectLoop]
    cases h1 : env.ctorRaises i <;> cases h2 : env.isOpenedRaises i <;>
      cases h3 : env.opened i <;> cases h4 : env.readRaises i <;>
      cases h5 : env.readOk i <;> cases h6 : env.releaseRaises i <;>
      simp [h1, h2, h3, h4, h5, h6] <;>
      exact detectLoop_mono env rest _ _ e (by simp [World.log, World.alloc, he])

lemma detectLoop_balance (env : Env)
    (h1 : ∀ a, env.ctorRaises a = false) (h2 : ∀ a, env.isOpenedRaises a = false)
    (h3 : ∀ a, env.readRaises a = false) (h4 : ∀ a, env.releaseRaises a = false) :
    ∀ (is : List Int) (acc : List (Int × String)) (w : World) (arg : Int) (hid : Nat),
      Ev.ctor arg hid ∈ (detectLoop env is acc w).2.trace →
      Ev.ctor arg hid ∈ w.trace ∨ Ev.releaseH hid ∈ (detectLoop env is acc w).2.trace
  | [], acc, w, arg, hid => by
    intro hm
    rw [detectLoop] at hm ⊢
    exact Or.inl hm
  | i :: rest, acc, w, arg, hid => by
    intro hm
    rw [detectLoop] at hm ⊢
    cases hop : env.opened i <;> cases hok : env.readOk i <;>
      simp only [h1 i, h2 i, h3 i, h4 i, hop, hok, Bool.false_eq_true, if_false] at hm ⊢ <;>
      [skip; skip; skip; skip] <;>
    · rcases detectLoop_balance env h1 h2 h3 h4 rest _ _ arg hid hm with hin | hrel
      · simp [World.log, World.alloc] at hin
        rcases hin with hin | ⟨rfl, rfl⟩
        · exact Or.inl hin
        · exact Or.inr (detectLoop_mono env rest _ _ _ (by simp [World.log, World.alloc]))
      · exact Or.inr hrel

lemma drop_len_append (a b : List Ev) : (a ++ b).drop a.length = b := by
  simp

/-! ### Claim theorems -/

/-- Claim C1, counterexample.  On a transport where every variant
fails (no device reports opened, nothing raises), a failing open from
a fresh camera returns False with initialized false, but the cap field
is NOT null: it retains the last attempted capture object.  This
refutes the claimed invariant that isOpen equal false implies the
handle is null after the call. -/
theorem init_fail_handle_not_null_cex :
    (SafeCamera.init envAllFail 0 Camera.new w0).1 = false ∧
      (SafeCamera.init envAllFail 0 Camera.new w0).2.1.initialized = false ∧
      (SafeCamera.init envAllFail 0 Camera.new w0).2.1.cap ≠ none := by
  decide

/-- Claim C1, amended.  When every variant of the attempt list fails,
open returns the failure result False and leaves initialized false
(provided the underlying handle release does not raise and the session
invariant held on entry), including across repeated failing opens; the
cap field, however, may retain the last attempted non-open capture
object rather than being null. -/
theorem init_all_variants_fail_closed (env : Env) (index : Int) (cam : Camera) (w : World)
    (hfail : ∀ a ∈ attemptsList index, variantSucceeds env a = false)
    (hrel : ∀ a, env.releaseRaises a = false)
    (hinv : cam.initialized = true → cam.cap ≠ none) :
    (SafeCamera.init env index cam w).1 = false ∧
      (SafeCamera.init env index cam w).2.1.initialized = false := by
  have hany : (attemptsList index).any (fun a => variantSucceeds env a) = false := by
    rw [List.any_eq_false]
    intro a ha
    simp [hfail a ha]
  unfold SafeCamera.init
  by_cases hc : cam.cap.isSome = true
  · rw [if_pos hc]
    refine ⟨by rw [initLoop_fst, hany], ?_⟩
    rw [initLoop_initialized_of_all_fail env _ _ _ hfail]
    exact (release_clean env cam w hrel).2
  · rw [if_neg hc]
    refine ⟨by rw [initLoop_fst, hany], ?_⟩
    rw [initLoop_initialized_of_all_fail env _ _ _ hfail]
    cases hi : cam.initialized with
    | false => rfl
    | true =>
      exact absurd (hinv hi) (by simp [Option.not_isSome_iff_eq_none.mp hc])

/-- Witness for the amended claim C1 at a concrete all-failing
transport. -/
theorem init_all_variants_fail_closed_witness :
    (SafeCamera.init envAllFail 3 Camera.new w0).1 = false ∧
      (SafeCamera.init envAllFail 3 Camera.new w0).2.1.initialized = false :=
  init_all_variants_fail_closed envAllFail 3 Camera.new w0 (by decide) (fun _ => rfl)
    (by decide)

/-- Claim C2.  On a transport that raises no exception, open evaluates
the fixed ordered variant list (requested index with the default
backend, requested index plus the V4L and V4L2 constants, then the
sentinel index -1 across the same transport list), succeeds exactly
when some variant both reports opened and passes the immediate test
read, and the first such variant in list order is the one whose handle
is retained; a variant whose open reports success but whose test read
fails is passed over. -/
theorem init_variant_order (env : Env) (index : Int) (cam : Camera) (w : World)
    (hnr : noRaises env) :
    ((SafeCamera.init env index cam w).1 = true ↔
      ∃ a ∈ attemptsList index, (env.opened a && env.readOk a) = true) ∧
    (∀ a, firstSat (fun x => env.opened x && env.readOk x) (attemptsList index) = some a →
      ∃ c : Cap, (SafeCamera.init env index cam w).2.1.cap = some c ∧ c.arg = a) := by
  obtain ⟨n1, n2, n3, n4, n5⟩ := hnr
  have hvs : ∀ x, variantSucceeds env x = (env.opened x && env.readOk x) := by
    intro x
    simp [variantSucceeds, n1 x, n2 x, n3 x CAP_PROP_BUFFERSIZE, n3 x CAP_PROP_FPS, n4 x]
  have hfun : (fun x => variantSucceeds env x) = (fun x => env.opened x && env.readOk x) :=
    funext hvs
  constructor
  · have h1 : (SafeCamera.init env index cam w).1 =
        (attemptsList index).any (fun a => variantSucceeds env a) := by
      unfold SafeCamera.init
      by_cases hc : cam.cap.isSome = true
      · rw [if_pos hc, initLoop_fst]
      · rw [if_neg hc, initLoop_fst]
    rw [h1, hfun]
    simp [List.any_eq_true]
  · intro a ha
    rw [← hfun] at ha
    unfold SafeCamera.init
    by_cases hc : cam.cap.isSome = true
    · rw [if_pos hc]
      exact initLoop_firstSat env _ _ _ a ha
    · rw [if_neg hc]
      exact initLoop_firstSat env _ _ _ a ha

/-- Witness for claim C2: on a transport where every device reports
opened but only the argument 200 (requested index 0 plus the V4L
constant) delivers frames, open succeeds and retains a handle for
argument 200, the first winning variant. -/
theorem init_variant_order_witness :
    (SafeCamera.init envScenB 0 Camera.new w0).1 = true ∧
      ∃ c : Cap, (SafeCamera.init envScenB 0 Camera.new w0).2.1.cap = some c ∧ c.arg = 200 := by
  have hnr : noRaises envScenB :=
    ⟨fun _ => rfl, fun _ => rfl, fun _ _ => rfl, fun _ => rfl, fun _ => rfl⟩
  exact ⟨(init_variant_order envScenB 0 Camera.new w0 hnr).1.mpr (by decide),
    (init_variant_order envScenB 0 Camera.new w0 hnr).2 200 (by decide)⟩

/-- Claim C3.  An exception raised by the transport during a single
variant attempt of open (an error result of the attempt body) is
caught by the attempt loop and treated as that attempt's failure: the
loop proceeds with the remaining variants from the state left by the
raising attempt, so the exception never propagates out of open, whose
embedding is a total function returning an explicit Boolean result. -/
theorem init_attempt_exception_continues (env : Env) (arg : Int) (rest : List Int)
    (cam : Camera) (w : World)
    (h : (attemptRun env arg cam w).1 = Except.error ()) :
    initLoop env (arg :: rest) cam w =
      initLoop env rest (attemptRun env arg cam w).2.1 (attemptRun env arg cam w).2.2 := by
  rw [initLoop, h]
  simp [isWin]

/-- Witness for claim C3 at a transport whose VideoCapture
constructor always raises. -/
theorem init_attempt_exception_continues_witness :
    initLoop envCtorRaise [7, 3] Camera.new w0 =
      initLoop envCtorRaise [3] (attemptRun envCtorRaise 7 Camera.new w0).2.1
        (attemptRun envCtorRaise 7 Camera.new w0).2.2 :=
  init_attempt_exception_continues envCtorRaise 7 [3] Camera.new w0 rfl

/-- Claim C4, counterexample.  If the raw handle release raises, the
except-handler swallows the error but the field-clearing assignments
are skipped, so release leaves the session NOT Closed: initialized
stays true and the handle field stays non-null.  This refutes the
claim that release always leaves the session Closed with the handle
null. -/
theorem release_raise_not_closed_cex :
    (SafeCamera.release envRelRaise camOpen0 w0).1.initialized = true ∧
      (SafeCamera.release envRelRaise camOpen0 w0).1.cap ≠ none := by
  decide

/-- Claim C4, amended.  release never raises (it is a total function)
and, provided the underlying raw handle release does not raise, it is
idempotent and total: from any state, including a never-opened session
and after a partially-failed open, it leaves cap null and initialized
false, and calling it again changes nothing.  If the raw release
raises, the error is swallowed but the state is left unchanged. -/
theorem release_idempotent_closed (env : Env) (cam : Camera) (w : World)
    (h : ∀ a, env.releaseRaises a = false) :
    (SafeCamera.release env cam w).1.cap = none ∧
      (SafeCamera.release env cam w).1.initialized = false ∧
      SafeCamera.release env (SafeCamera.release env cam w).1 (SafeCamera.release env cam w).2 =
        ((SafeCamera.release env cam w).1, (SafeCamera.release env cam w).2) := by
  cases hc : cam.cap <;> simp [SafeCamera.release, hc, h]

/-- Witness for the amended claim C4 on a non-raising transport,
from an open state. -/
theorem release_idempotent_closed_witness :
    (SafeCamera.release envOK camOpen0 w0).1.cap = none ∧
      (SafeCamera.release envOK camOpen0 w0).1.initialized = false ∧
      SafeCamera.release envOK (SafeCamera.release envOK camOpen0 w0).1
          (SafeCamera.release envOK camOpen0 w0).2 =
        ((SafeCamera.release envOK camOpen0 w0).1, (SafeCamera.release envOK camOpen0 w0).2) :=
  release_idempotent_closed envOK camOpen0 w0 (fun _ => rfl)

/-- Claim C5.  read on a Closed session (initialized false) returns
the NotOpen failure (False, None) with camera and world unchanged (no
transport call at all); read on an Open session performs exactly one
frame read on the held handle (the trace grows by exactly one read
event), never changes the camera state (the session remains Open),
and when the transport reports failure without raising it returns
(False, None). -/
theorem read_closed_noop_open_single_read (env : Env) (cam : Camera) (w : World) :
    (cam.initialized = false → SafeCamera.read env cam w = ((false, none), cam, w)) ∧
    (∀ c : Cap, cam.initialized = true → cam.cap = some c →
      (SafeCamera.read env cam w).2.1 = cam ∧
      (∃ e, isReadEv e = true ∧ (SafeCamera.read env cam w).2.2.trace = w.trace ++ [e]) ∧
      (env.readRaises c.arg = false → env.readOk c.arg = false →
        (SafeCamera.read env cam w).1 = (false, none))) := by
  constructor
  · intro h
    simp [SafeCamera.read, h]
  · intro c hi hc
    refine ⟨?_, ?_, ?_⟩
    · cases hr : env.readRaises c.arg <;> simp [SafeCamera.read, hi, hc, hr, World.log]
    · cases hr : env.readRaises c.arg with
      | false =>
        exact ⟨Ev.readF c.id (env.readOk c.arg), by simp [isReadEv],
          by simp [SafeCamera.read, hi, hc, hr, World.log]⟩
      | true =>
        exact ⟨Ev.readEx c.id, by simp [isReadEv],
          by simp [SafeCamera.read, hi, hc, hr, World.log]⟩
    · intro hr hok
      simp [SafeCamera.read, hi, hc, hr, hok]

/-- Witness for claim C5: Closed session no-op, and failing read on an
open session returning the failure pair while staying Open. -/
theorem read_closed_noop_open_single_read_witness :
    SafeCamera.read envReadFail Camera.new w0 = ((false, none), Camera.new, w0) ∧
      (SafeCamera.read envReadFail camOpen0 w0).1 = (false, none) ∧
      (SafeCamera.read envReadFail camOpen0 w0).2.1 = camOpen0 := by
  refine ⟨?_, ?_, ?_⟩
  · exact (read_closed_noop_open_single_read envReadFail Camera.new w0).1 rfl
  · exact ((read_closed_noop_open_single_read envReadFail camOpen0 w0).2 ⟨0, 0⟩ rfl rfl).2.2
      rfl rfl
  · exact ((read_closed_noop_open_single_read envReadFail camOpen0 w0).2 ⟨0, 0⟩ rfl rfl).1

/-- Claim C6.  set_resolution on a Closed session (initialized false)
returns the error pair (None, None) with camera and world unchanged,
so no handle is ever dereferenced; on an Open session whose four
property calls do not raise, it returns the actual dimensions
negotiated by the device for the requested ones (which the environment
may make different from the request) and leaves the camera state
unchanged. -/
theorem set_resolution_closed_err_open_actuals (env : Env) (width height : Int)
    (cam : Camera) (w : World) :
    (cam.initialized = false →
      SafeCamera.set_resolution env width height cam w = ((none, none), cam, w)) ∧
    (∀ c : Cap, cam.initialized = true → cam.cap = some c →
      env.setRaises c.arg CAP_PROP_FRAME_WIDTH = false →
      env.setRaises c.arg CAP_PROP_FRAME_HEIGHT = false →
      env.getRaises c.arg CAP_PROP_FRAME_WIDTH = false →
      env.getRaises c.arg CAP_PROP_FRAME_HEIGHT = false →
      (SafeCamera.set_resolution env width height cam w).1 =
        (some (env.actualW c.arg width), some (env.actualH c.arg height)) ∧
      (SafeCamera.set_resolution env width height cam w).2.1 = cam) := by
  constructor
  · intro h
    simp [SafeCamera.set_resolution, h]
  · intro c hi hc hs1 hs2 hg1 hg2
    constructor <;> simp [SafeCamera.set_resolution, hi, hc, hs1, hs2, hg1, hg2]

/-- Witness for claim C6, Scenario C: requesting 2592 by 1944 on a
device that snaps every request to 1920 by 1080 returns the actual
1920 by 1080, and a Closed session returns the error pair without
touching the world. -/
theorem set_resolution_snap_witness :
    (SafeCamera.set_resolution envSnap 2592 1944 camOpen0 w0).1 = (some 1920, some 1080) ∧
      SafeCamera.set_resolution envSnap 2592 1944 Camera.new w0 =
        ((none, none), Camera.new, w0) := by
  refine ⟨?_, ?_⟩
  · exact ((set_resolution_closed_err_open_actuals envSnap 2592 1944 camOpen0 w0).2
      ⟨0, 0⟩ rfl rfl rfl rfl rfl rfl).1
  · exact (set_resolution_closed_err_open_actuals envSnap 2592 1944 Camera.new w0).1 rfl

/-- Claim C7.  For every transport behaviour, the catalog returned by
detect_cameras is non-empty and its first entry is the synthetic auto
sentinel (-1, "Auto Detect Camera"), even when zero candidate indices
yield a working device. -/
theorem detect_cameras_nonempty_auto_first (env : Env) (w : World) :
    (detect_cameras env w).1 ≠ [] ∧
      (detect_cameras env w).1.head? = some (-1, "Auto Detect Camera") := by
  rw [detect_cameras, detectLoop_acc]
  constructor <;> simp

/-- Claim C9.  detect_cameras iterates the fixed ascending candidate
indices 0,1,2,3 and keeps an index exactly when its single-backend
probe succeeded (handle construction, isOpened and the test read all
succeed), recording the entry (i, "Camera i"); the catalog is the auto
sentinel followed by the kept indices in ascending probe order.  The
backend set probed per index is the singleton default backend, so the
recorded descriptor trivially uses the first backend that
succeeded. -/
theorem detect_catalog_order (env : Env) (w : World) :
    (detect_cameras env w).1 =
      (-1, "Auto Detect Camera") ::
        (candidateIndices.filter (fun i => probeOk env i)).map (fun i => (i, cameraName i)) := by
  rw [detect_cameras, detectLoop_acc]
  simp

/-- Claim C8, counterexample.  On a transport where index 0 reports
opened but its read raises, detect_cameras constructs handle 0 for
index 0, the exception aborts the iteration before the release call,
and the handle is never released (no release event for it in the
trace): a handle IS leaked across a failed probe, refuting the claim
that in every failure case the handle is released before the probe
returns.  The probe still excludes index 0 from the catalog. -/
theorem detect_probe_leak_cex :
    Ev.ctor 0 0 ∈ (detect_cameras envLeak w0).2.trace ∧
      Ev.releaseH 0 ∉ (detect_cameras envLeak w0).2.trace ∧
      ((0 : Int), cameraName 0) ∉ (detect_cameras envLeak w0).1 := by
  decide

/-- Claim C8, amended.  A probed index is kept in the catalog only
when both its open and its single test read succeed (in all other
cases the probe contributes nothing), and, provided no transport call
of the probe raises, every handle constructed during enumeration is
released before detect_cameras returns.  When isOpened or read raises,
however, the caught exception skips the release and the handle is
leaked. -/
theorem detect_probe_release_no_raise (env : Env) (w : World)
    (h1 : ∀ a, env.ctorRaises a = false) (h2 : ∀ a, env.isOpenedRaises a = false)
    (h3 : ∀ a, env.readRaises a = false) (h4 : ∀ a, env.releaseRaises a = false) :
    (∀ (arg : Int) (hid : Nat), Ev.ctor arg hid ∈ (detect_cameras env w).2.trace →
      Ev.ctor arg hid ∈ w.trace ∨ Ev.releaseH hid ∈ (detect_cameras env w).2.trace) ∧
    (∀ (i : Int) (s : String), (i, s) ∈ (detect_cameras env w).1 →
      (i = -1 ∧ s = "Auto Detect Camera") ∨ (env.opened i && env.readOk i) = true) := by
  constructor
  · intro arg hid hm
    exact detectLoop_balance env h1 h2 h3 h4 candidateIndices _ w arg hid hm
  · intro i s hm
    rw [detect_cameras, detectLoop_acc] at hm
    rcases List.mem_append.mp hm with hm | hm
    · left
      have he := List.mem_singleton.mp hm
      exact ⟨congrArg Prod.fst he, congrArg Prod.snd he⟩
    · right
      obtain ⟨x, hx, hxe⟩ := List.mem_map.mp hm
      have hpo := (List.mem_filter.mp hx).2
      have hxi : x = i := congrArg Prod.fst hxe
      rw [← hxi]
      simp only [probeOk, h1 x, h2 x, h3 x] at hpo
      simpa using hpo

/-- Witness for the amended claim C8 on a concrete never-raising
transport: the handle constructed for index 0 is released before
enumeration returns. -/
theorem detect_probe_release_no_raise_witness :
    Ev.releaseH 0 ∈ (detect_cameras envProbe w0).2.trace := by
  have h := detect_probe_release_no_raise envProbe w0 (fun _ => rfl) (fun _ => rfl)
    (fun _ => rfl) (fun _ => rfl)
  rcases h.1 0 0 (by decide) with hin | hrel
  · exact absurd hin (by decide)
  · exact hrel

/-- Claim C10.  Every call of open makes at most 6 VideoCapture
construction attempts (counted on the trace suffix added by the call),
and whenever open returns True the session is genuinely Open:
initialized is true, a handle is held, and the call ends with that
exact handle being constructed, reporting opened, having its buffer
size set to 1 and its FPS hint set to 15, and then delivering a
successful test read, in that order. -/
theorem init_success_postconditions (env : Env) (index : Int) (cam : Camera) (w : World) :
    openAttempts ((SafeCamera.init env index cam w).2.2.trace.drop w.trace.length) ≤ 6 ∧
    ((SafeCamera.init env index cam w).1 = true →
      ∃ c : Cap, (SafeCamera.init env index cam w).2.1.cap = some c ∧
        (SafeCamera.init env index cam w).2.1.initialized = true ∧
        ∃ pre, (SafeCamera.init env index cam w).2.2.trace = w.trace ++ pre ++
          [Ev.ctor c.arg c.id, Ev.isOp c.id true,
           Ev.setProp c.id CAP_PROP_BUFFERSIZE 1, Ev.setProp c.id CAP_PROP_FPS 15,
           Ev.readF c.id true]) := by
  have hlen : (attemptsList index).length = 6 := by simp [attemptsList]
  unfold SafeCamera.init
  by_cases hc : cam.cap.isSome = true
  · rw [if_pos hc]
    obtain ⟨d0, hd0, hn0⟩ := release_trace env cam w
    obtain ⟨d1, hd1, hn1⟩ := initLoop_trace env (attemptsList index)
      (SafeCamera.release env cam w).1 (SafeCamera.release env cam w).2
    constructor
    · rw [hd1, hd0, List.append_assoc, drop_len_append, openAttempts_append, hn0]
      omega
    · intro hwin
      obtain ⟨c, hcap, hinit, pre, hp⟩ := initLoop_win_shape env (attemptsList index) _ _ hwin
      refine ⟨c, hcap, hinit, d0 ++ pre, ?_⟩
      rw [hp, hd0]
      simp [List.append_assoc]
  · rw [if_neg hc]
    obtain ⟨d1, hd1, hn1⟩ := initLoop_trace env (attemptsList index) cam w
    constructor
    · rw [hd1, drop_len_append]
      omega
    · intro hwin
      exact initLoop_win_shape env (attemptsList index) cam w hwin

/-- Witness for claim C10 on a fully working transport: the first
attempt wins. -/
theorem init_success_postconditions_witness :
    openAttempts ((SafeCamera.init envOK 0 Camera.new w0).2.2.trace.drop w0.trace.length) ≤ 6 ∧
      ∃ c : Cap, (SafeCamera.init envOK 0 Camera.new w0).2.1.cap = some c ∧
        (SafeCamera.init envOK 0 Camera.new w0).2.1.initialized = true ∧
        ∃ pre, (SafeCamera.init envOK 0 Camera.new w0).2.2.trace = w0.trace ++ pre ++
          [Ev.ctor c.arg c.id, Ev.isOp c.id true,
           Ev.setProp c.id CAP_PROP_BUFFERSIZE 1, Ev.setProp c.id CAP_PROP_FPS 15,
           Ev.readF c.id true] :=
  ⟨(init_success_postconditions envOK 0 Camera.new w0).1,
    (init_success_postconditions envOK 0 Camera.new w0).2 (by decide)⟩
